import Mathlib

/-!
Verification development for the `tled_ble` repository: a Home Assistant
integration controlling a BLE-proxied mesh of addressable lights.

The definitions below are a shallow embedding of the core controller in
`custom_components/tled_ble/ble_controller.py` (frame codec, notification
router, mesh node table, serialized send path, bounded-retry connect loop,
persistent reconnect supervisor) and of the configuration loader in
`custom_components/tled_ble/__init__.py`.  Bytes are modelled as `Nat`,
byte buffers as `List Nat`, the Python dict of subdevices as an
insertion-ordered association list, and the asynchronous task / transport
effects as explicit state passing with boolean outcome oracles.
-/

namespace TledBle

/-- Header constant from `custom_components/tled_ble/const.py`: `HEADER = 0xA5`. -/
def HEADER : Nat := 0xA5

/-- Control opcode from `const.py`: `CONTROL_CMD = 0x8202`. -/
def CONTROL_CMD : Nat := 0x8202

/-- Broadcast address from `const.py`: `BROADCAST_ADDR = 0xFFFF`. -/
def BROADCAST_ADDR : Nat := 0xFFFF

/-- On/off plus brightness state of one mesh node, the value stored under
`"state"` in `self.subdevices[address]`. -/
structure SubState where
  on_ : Bool
  brightness : Nat
deriving DecidableEq, Repr

/-- One mesh node table entry `{name, state}` as stored in
`self.subdevices` by the controller. -/
structure Subdevice where
  name : String
  state : SubState
deriving DecidableEq, Repr

/-- The controller's mesh node table `self.subdevices`: a Python dict from
integer mesh address to entry, modelled as an insertion-ordered
association list. -/
abbrev NodeTable : Type := List (Nat × Subdevice)

/-- Events fired on the Home Assistant bus by the controller:
`tled_ble_subdevice_updated {address, state}` and
`tled_ble_new_subdevice_found {controller_mac, address, name, state}`. -/
inductive Event where
  | subdeviceUpdated (address : Nat) (state : SubState)
  | newSubdeviceFound (controller_mac : String) (address : Nat) (name : String)
      (state : SubState)
deriving DecidableEq, Repr

/-- In-place state update `self.subdevices[address]["state"] = st`:
rewrites the state of the entry at `address`, keeping its name, and
touches no other entry. -/
def updateState (t : NodeTable) (address : Nat) (st : SubState) : NodeTable :=
  t.map (fun p => if p.1 = address then (p.1, { p.2 with state := st }) else p)

/-- The key set of a node table, in insertion order. -/
def keys (t : NodeTable) : List Nat := t.map Prod.fst

/-- Python's `brightness if brightness else 0` in `send_control_command`:
a falsy (zero) brightness maps to `0`, anything else passes through. -/
def normalized_brightness (brightness : Nat) : Nat :=
  if brightness ≠ 0 then brightness else 0

/-- The 7-byte control frame built by `send_control_command`
(`ble_controller.py` lines 404-413):
`[HEADER, addr & 0xFF, (addr >> 8) & 0xFF, (CONTROL_CMD >> 8) & 0xFF,
CONTROL_CMD & 0xFF, 0x01 if is_on else 0x00, normalized_brightness]`. -/
def encodeControl (address : Nat) (is_on : Bool) (brightness : Nat) : List Nat :=
  [HEADER,
   address &&& 0xFF,
   (address >>> 8) &&& 0xFF,
   (CONTROL_CMD >>> 8) &&& 0xFF,
   CONTROL_CMD &&& 0xFF,
   if is_on then 0x01 else 0x00,
   normalized_brightness brightness]

/-- The parsing step of `_notification_handler` (`ble_controller.py`
lines 202-210): reject buffers shorter than 7 bytes or with a wrong
header byte, otherwise read `address = data[1] + (data[2] << 8)`,
`is_on = data[5] != 0`, `brightness = data[6]`. -/
def decodeNotification (data : List Nat) : Option (Nat × Bool × Nat) :=
  if data.length < 7 ∨ data.getD 0 0 ≠ HEADER then
    none
  else
    some (data.getD 1 0 + (data.getD 2 0) <<< 8,
          data.getD 5 0 != 0,
          data.getD 6 0)

/-- One uppercase hexadecimal digit character, as produced by Python's
`X` format conversion. -/
def hexDigit (n : Nat) : Char :=
  if n < 10 then Char.ofNat (48 + n) else Char.ofNat (55 + n)

/-- Hexadecimal digits of `n`, least significant first; the first
argument is recursion fuel (any fuel `≥ n` computes all digits). -/
def hexDigitsAux : Nat → Nat → List Char
  | 0, _ => []
  | fuel + 1, n => if n = 0 then [] else hexDigit (n % 16) :: hexDigitsAux fuel (n / 16)

/-- Python's `f"{address:04X}"` used to synthesize a discovered node's
display name in `_async_add_discovered_subdevice`: uppercase hexadecimal,
zero-padded on the left to at least four characters. -/
def toHex4 (address : Nat) : String :=
  String.mk (List.replicate (4 - (hexDigitsAux address address).reverse.length) '0'
    ++ (hexDigitsAux address address).reverse)

/-- The effect of `_async_add_discovered_subdevice(address, is_on,
brightness)` (`ble_controller.py` lines 231-251) on the node table and
the event bus: if the address is still unknown, insert an entry named
`f"{address:04X}"` with the notified state and fire one
`tled_ble_new_subdevice_found` event carrying the controller MAC,
address, name and state.  (The optional write-back of the table into the
config entry is external persistence and is not modelled.) -/
def add_discovered_subdevice (mac : String) (subdevices : NodeTable)
    (address : Nat) (is_on : Bool) (brightness : Nat) : NodeTable × List Event :=
  if (subdevices.lookup address).isSome then
    (subdevices, [])
  else
    (subdevices ++ [(address, ⟨toHex4 address, ⟨is_on, brightness⟩⟩)],
     [Event.newSubdeviceFound mac address (toHex4 address) ⟨is_on, brightness⟩])

/-- The notification router `_notification_handler` (`ble_controller.py`
lines 199-229) as a function from the current node table and the inbound
byte buffer to the new table and the fired events: buffers shorter than
7 bytes or with a wrong header byte are ignored; an unknown address is
handed to `add_discovered_subdevice`; a known address has its state
updated in place and fires one `tled_ble_subdevice_updated` event. -/
def notification_handler (mac : String) (subdevices : NodeTable)
    (data : List Nat) : NodeTable × List Event :=
  if data.length < 7 ∨ data.getD 0 0 ≠ HEADER then
    (subdevices, [])
  else
    let address := data.getD 1 0 + (data.getD 2 0) <<< 8
    let is_on := data.getD 5 0 != 0
    let brightness := data.getD 6 0
    if (subdevices.lookup address).isNone then
      add_discovered_subdevice mac subdevices address is_on brightness
    else
      (updateState subdevices address ⟨is_on, brightness⟩,
       [Event.subdeviceUpdated address ⟨is_on, brightness⟩])

/-- The controller state touched by the serialized send path
(`send_command`, `ble_controller.py` lines 347-368): the `connected`
flag, whether `self.client` exists and reports `is_connected`, liveness
of the heartbeat task and of the reconnect-supervisor task, how many
supervisor tasks have been created, and the frames written to the
transport so far. -/
structure ControllerState where
  connected : Bool
  clientConnected : Bool
  heartbeatLive : Bool
  reconnectLive : Bool
  reconnectStarts : Nat
  writes : List (List Nat)
deriving DecidableEq, Repr

/-- `_stop_heartbeat` (`ble_controller.py` lines 341-345): cancel the
heartbeat task if one is live; afterwards no heartbeat task is live. -/
def stop_heartbeat (s : ControllerState) : ControllerState :=
  { s with heartbeatLive := false }

/-- The guarded supervisor start `if not self._reconnect_task or
self._reconnect_task.done(): self._reconnect_task =
...create_task(self._persistent_reconnect())`: a new supervisor task is
created only when no live one exists. -/
def arm_reconnect (s : ControllerState) : ControllerState :=
  if !s.reconnectLive then
    { s with reconnectLive := true, reconnectStarts := s.reconnectStarts + 1 }
  else
    s

/-- `send_command` (`ble_controller.py` lines 347-368).  `writeOk` is the
outcome of the transport write `client.write_gatt_char`: when it raises,
the code flips `connected` to false, stops the heartbeat and arms the
reconnect supervisor.  Returns the new state and the boolean result. -/
def send_command (s : ControllerState) (command : List Nat) (writeOk : Bool) :
    ControllerState × Bool :=
  if !s.connected || !s.clientConnected then
    (s, false)
  else if writeOk then
    ({ s with writes := s.writes ++ [command] }, true)
  else
    (arm_reconnect (stop_heartbeat { s with connected := false }), false)

/-- Connection state plus the mesh node table, as touched by
`send_control_command`. -/
structure MeshState where
  conn : ControllerState
  subdevices : NodeTable
deriving DecidableEq, Repr

/-- `send_control_command(address, is_on, brightness)`
(`ble_controller.py` lines 390-427) for an integer address: build the
control frame, send it through `send_command`, and only on success and
only when the address is already a key of the node table update that
entry's state and fire one `tled_ble_subdevice_updated` event.  Returns
the new state, the fired events and the boolean result. -/
def send_control_command (ms : MeshState) (writeOk : Bool)
    (address : Nat) (is_on : Bool) (brightness : Nat) :
    MeshState × List Event × Bool :=
  let cmd_frame := encodeControl address is_on brightness
  let sent := send_command ms.conn cmd_frame writeOk
  if sent.2 && (ms.subdevices.lookup address).isSome then
    (⟨sent.1, updateState ms.subdevices address ⟨is_on, normalized_brightness brightness⟩⟩,
     [Event.subdeviceUpdated address ⟨is_on, normalized_brightness brightness⟩],
     sent.2)
  else
    (⟨sent.1, ms.subdevices⟩, [], sent.2)

/-- Summary of one run of the bounded-retry connect loop in `connect`
(`ble_controller.py` lines 42-160): whether it returned success, the
final `connected` flag, how many attempts were made, and the
inter-attempt waits actually slept, in order. -/
structure ConnectRun where
  success : Bool
  connected : Bool
  attempts : Nat
  waits : List Nat
deriving DecidableEq, Repr

/-- The `for attempt in range(retries)` loop of `connect`: `outcome
attempt` is whether the attempt establishes the link.  The last argument
is fuel, instantiated with `retries` by `connect` so that attempts
`0, ..., retries - 1` are made.  On success the loop returns at once
with `connected` set; between attempts, while `attempt < retries - 1`,
it sleeps `min(5 * (attempt + 1), 30)` seconds; exhausting the budget
ends with `connected = false` and a failure result. -/
def connect_go (outcome : Nat → Bool) (retries : Nat) : Nat → Nat → ConnectRun
  | _, 0 => { success := false, connected := false, attempts := 0, waits := [] }
  | attempt, fuel + 1 =>
    if outcome attempt then
      { success := true, connected := true, attempts := 1, waits := [] }
    else
      { success := (connect_go outcome retries (attempt + 1) fuel).success,
        connected := (connect_go outcome retries (attempt + 1) fuel).connected,
        attempts := (connect_go outcome retries (attempt + 1) fuel).attempts + 1,
        waits := (if attempt < retries - 1 then [min (5 * (attempt + 1)) 30] else [])
          ++ (connect_go outcome retries (attempt + 1) fuel).waits }

/-- Python's falsy-defaulting `x = x or default` on an optional numeric
argument, as in `timeout = timeout or self.base_timeout` and `retries =
retries or self.max_retries` in `connect`. -/
def pyOr (x : Option Nat) (default : Nat) : Nat :=
  match x with
  | none => default
  | some 0 => default
  | some (n + 1) => n + 1

/-- `connect(timeout=None, retries=None)` (`ble_controller.py` lines
42-160): if already connected with a live client it returns success at
once; otherwise it resolves `retries` with Python `or` against
`self.max_retries = 3` and runs the attempt loop. -/
def connect (alreadyConnected : Bool) (outcome : Nat → Bool)
    (retriesArg : Option Nat) : ConnectRun :=
  if alreadyConnected then
    { success := true, connected := true, attempts := 0, waits := [] }
  else
    connect_go outcome (pyOr retriesArg 3) 0 (pyOr retriesArg 3)

/-- One iteration record of the persistent reconnect supervisor
`_persistent_reconnect` (`ble_controller.py` lines 277-302) with attempt
counter `attempt`: the computed connect timeout `min(self.base_timeout +
attempt * 5, 60.0)`, the computed backoff `min(2 ** attempt, 60)`,
whether the passive presence check `scan_for_device` ran this iteration
(`attempt > 1 and attempt % 2 == 0`), the retry count passed to
`connect` (always 1), the connect outcome, and the backoff actually
slept (`none` when connect succeeded). -/
structure SupIter where
  attempt : Nat
  timeout : Nat
  wait : Nat
  presence_check : Bool
  connect_retries : Nat
  connect_ok : Bool
  slept : Option Nat
deriving DecidableEq, Repr

/-- The body of one supervisor iteration at attempt counter `attempt`,
with `base` the controller's `base_timeout` and `ok` the connect
outcome oracle. -/
def supervisor_iter (base : Nat) (ok : Nat → Bool) (attempt : Nat) : SupIter :=
  { attempt := attempt,
    timeout := min (base + attempt * 5) 60,
    wait := min (2 ^ attempt) 60,
    presence_check := decide (1 < attempt) && (attempt % 2 == 0),
    connect_retries := 1,
    connect_ok := ok attempt,
    slept := if ok attempt then none else some (min (2 ^ attempt) 60) }

/-- The loop of `_persistent_reconnect`: starting from attempt counter
`attempt0` (0 before the first iteration), increment the counter,
compute timeout and backoff, run the presence check on every second
attempt, call `connect` with one retry; exit on success, otherwise sleep
the backoff and repeat.  The first argument is fuel bounding how many
iterations are observed (the real loop also stops when the host shuts
down or the task is cancelled). -/
def persistent_reconnect (base : Nat) (ok : Nat → Bool) : Nat → Nat → List SupIter
  | 0, _ => []
  | fuel + 1, attempt0 =>
    if ok (attempt0 + 1) then
      [supervisor_iter base ok (attempt0 + 1)]
    else
      supervisor_iter base ok (attempt0 + 1) ::
        persistent_reconnect base ok fuel (attempt0 + 1)

/-- Decimal value of a digit-only character list, or `none` if the list
is empty or contains a non-digit. -/
def digitsVal (l : List Char) : Option Nat :=
  if l = [] then none
  else if l.all Char.isDigit then
    some (l.foldl (fun a c => a * 10 + (c.toNat - 48)) 0)
  else none

/-- Python's builtin `int(k)` on a string, used by `async_setup_entry`
(`custom_components/tled_ble/__init__.py` line 35) to normalize
subdevice address keys: an optional sign followed by base-TEN digits
(surrounding whitespace and digit-group underscores, which Python also
accepts, are not modelled; the configuration keys at issue are plain
digit strings).  A `ValueError` is `none`. -/
def pyInt (s : String) : Option Int :=
  match s.toList with
  | '-' :: rest => (digitsVal rest).map (fun n => -(n : Int))
  | '+' :: rest => (digitsVal rest).map (fun n => (n : Int))
  | l => (digitsVal l).map (fun n => (n : Int))

/-- Python dict assignment `subdevices[a] = v` on an association list:
replace the value at an existing key, else append. -/
def dictInsert (t : List (Int × Subdevice)) (a : Int) (v : Subdevice) :
    List (Int × Subdevice) :=
  if (t.lookup a).isSome then
    t.map (fun p => if p.1 = a then (a, v) else p)
  else
    t ++ [(a, v)]

/-- One iteration of the configuration-load loop of `async_setup_entry`
(`custom_components/tled_ble/__init__.py` lines 33-37): try
`subdevices[int(k)] = v`, discarding the pair when `int(k)` raises. -/
def load_step (subdevices : List (Int × Subdevice)) (kv : String × Subdevice) :
    List (Int × Subdevice) :=
  match pyInt kv.1 with
  | some a => dictInsert subdevices a kv.2
  | none => subdevices

/-- The configuration-load loop of `async_setup_entry`
(`custom_components/tled_ble/__init__.py` lines 31-38): starting from an
empty dict, for each raw `{key: value}` pair try
`subdevices[int(k)] = v`, discarding pairs whose key fails to parse. -/
def load_subdevices (raw : List (String × Subdevice)) : List (Int × Subdevice) :=
  raw.foldl load_step []

lemma and_255_eq_mod (n : Nat) : n &&& 0xFF = n % 256 := by
  have h : (0xFF : Nat) = 2 ^ 8 - 1 := by norm_num
  rw [h, Nat.and_pow_two_sub_one_eq_mod]

lemma normalized_brightness_eq (b : Nat) : normalized_brightness b = b := by
  unfold normalized_brightness
  by_cases h : b = 0 <;> simp [h]

lemma hexDigit_mem (n : Nat) (h : n < 16) :
    hexDigit n ∈ "0123456789ABCDEF".toList := by
  interval_cases n <;> decide

lemma hexDigitsAux_length :
    ∀ (fuel n k : Nat), n ≤ fuel → n < 16 ^ k →
      (hexDigitsAux fuel n).length ≤ k := by
  intro fuel
  induction fuel with
  | zero =>
    intro n k hn _
    interval_cases n
    simp [hexDigitsAux]
  | succ fuel ih =>
    intro n k hn hk
    unfold hexDigitsAux
    by_cases h0 : n = 0
    · simp [h0]
    · rw [if_neg h0]
      have hk0 : k ≠ 0 := by
        intro h
        rw [h, pow_zero] at hk
        omega
      obtain ⟨k, rfl⟩ := Nat.exists_eq_succ_of_ne_zero hk0
      have hdiv : n / 16 ≤ fuel := by
        have hlt : n / 16 < n := Nat.div_lt_self (by omega) (by omega)
        omega
      have hbound : n / 16 < 16 ^ k := by
        rw [Nat.div_lt_iff_lt_mul (by omega)]
        calc n < 16 ^ (k + 1) := hk
          _ = 16 ^ k * 16 := by ring
      have := ih (n / 16) k hdiv hbound
      simp only [List.length_cons]
      omega

lemma hexDigitsAux_mem :
    ∀ (fuel n : Nat) (c : Char), c ∈ hexDigitsAux fuel n →
      c ∈ "0123456789ABCDEF".toList := by
  intro fuel
  induction fuel with
  | zero =>
    intro n c hc
    simp [hexDigitsAux] at hc
  | succ fuel ih =>
    intro n c hc
    unfold hexDigitsAux at hc
    by_cases h0 : n = 0
    · simp [h0] at hc
    · rw [if_neg h0] at hc
      rcases List.mem_cons.mp hc with h | h
      · rw [h]
        exact hexDigit_mem _ (Nat.mod_lt _ (by omega))
      · exact ih _ _ h

lemma toHex4_length (address : Nat) (h : address < 16 ^ 4) :
    (toHex4 address).length = 4 := by
  unfold toHex4
  have hlen : (hexDigitsAux address address).reverse.length ≤ 4 := by
    rw [List.length_reverse]
    exact hexDigitsAux_length address address 4 le_rfl h
  show (List.replicate _ '0' ++ _).length = 4
  rw [List.length_append, List.length_replicate]
  omega

lemma toHex4_chars (address : Nat) (c : Char)
    (hc : c ∈ (toHex4 address).toList) :
    c ∈ "0123456789ABCDEF".toList := by
  unfold toHex4 at hc
  have hc2 : c ∈ List.replicate (4 - (hexDigitsAux address address).reverse.length) '0'
      ++ (hexDigitsAux address address).reverse := hc
  rcases List.mem_append.mp hc2 with h | h
  · rw [List.eq_of_mem_replicate h]
    decide
  · exact hexDigitsAux_mem address address c (List.mem_reverse.mp h)

lemma keys_updateState (t : NodeTable) (a : Nat) (st : SubState) :
    keys (updateState t a st) = keys t := by
  unfold keys updateState
  induction t with
  | nil => rfl
  | cons p t ih =>
    by_cases h : p.1 = a <;> simp [h, ih]

/-- C1.  Encode/decode round-trip: for every address in `[0, 0xFFFF]`,
`is_on` boolean, and brightness in `[0, 255]`, decoding the 7-byte frame
produced by the control-frame encoder recovers exactly the same triple
`(address, is_on, brightness)`. -/
theorem control_roundtrip (address : Nat) (is_on : Bool) (brightness : Nat)
    (ha : address ≤ 0xFFFF) (_hb : brightness ≤ 255) :
    decodeNotification (encodeControl address is_on brightness) =
      some (address, is_on, brightness) := by
  unfold decodeNotification encodeControl
  have hhead : ([HEADER, address &&& 0xFF, (address >>> 8) &&& 0xFF,
      (CONTROL_CMD >>> 8) &&& 0xFF, CONTROL_CMD &&& 0xFF,
      if is_on then 0x01 else 0x00,
      normalized_brightness brightness] : List Nat).getD 0 0 = HEADER := rfl
  rw [if_neg]
  · have haddr : (address &&& 0xFF) + ((address >>> 8) &&& 0xFF) <<< 8 = address := by
      rw [and_255_eq_mod, and_255_eq_mod, Nat.shiftRight_eq_div_pow,
        Nat.shiftLeft_eq]
      have h8 : (2 : Nat) ^ 8 = 256 := by norm_num
      rw [h8]
      omega
    have hon : ((if is_on then (0x01 : Nat) else 0x00) != 0) = is_on := by
      cases is_on <;> rfl
    simp only [List.getD, List.get?, List.length]
    rw [normalized_brightness_eq]
    simp only [Option.getD]
    rw [haddr, hon]
  · push_neg
    constructor
    · simp
    · exact hhead

/-- Witness for C1 at a concrete input: address `0x1234`, on, brightness
200 round-trips through encode then decode. -/
theorem control_roundtrip_witness :
    (0x1234 : Nat) ≤ 0xFFFF ∧ (200 : Nat) ≤ 255 ∧
    decodeNotification (encodeControl 0x1234 true 200) =
      some (0x1234, true, 200) :=
  ⟨by decide, by decide, control_roundtrip 0x1234 true 200 (by decide) (by decide)⟩

/-- C2.  Any inbound buffer shorter than 7 bytes, or whose first byte is
not the header constant `0xA5`, is discarded unparsed by
`_notification_handler`: no event is fired and the mesh node table is
completely unchanged. -/
theorem short_or_bad_header_ignored (mac : String) (subdevices : NodeTable)
    (data : List Nat) (h : data.length < 7 ∨ data.getD 0 0 ≠ HEADER) :
    notification_handler mac subdevices data = (subdevices, []) := by
  unfold notification_handler
  rw [if_pos h]

/-- Witness for C2 at a concrete input: a 7-byte buffer whose first byte
is `0xA4` leaves a one-node table untouched and fires nothing. -/
theorem short_or_bad_header_ignored_witness :
    (([0xA4, 1, 0, 0, 0, 1, 9] : List Nat).length < 7 ∨
      ([0xA4, 1, 0, 0, 0, 1, 9] : List Nat).getD 0 0 ≠ HEADER) ∧
    notification_handler "AA:BB" [(1, ⟨"gateway", ⟨false, 0⟩⟩)]
        [0xA4, 1, 0, 0, 0, 1, 9] =
      ([(1, ⟨"gateway", ⟨false, 0⟩⟩)], []) :=
  ⟨by decide,
   short_or_bad_header_ignored "AA:BB" [(1, ⟨"gateway", ⟨false, 0⟩⟩)]
     [0xA4, 1, 0, 0, 0, 1, 9] (by decide)⟩

/-- C3.  When the controller is not connected, `send_command` returns
failure immediately: nothing is written to the transport, no reconnect
is attempted or scheduled, and the whole controller state is returned
unchanged. -/
theorem send_not_connected_fails (s : ControllerState) (command : List Nat)
    (writeOk : Bool) (h : s.connected = false) :
    send_command s command writeOk = (s, false) := by
  unfold send_command
  rw [h]
  simp

/-- Witness for C3 at a concrete input: a disconnected controller state
is returned unchanged with a failure result even though the transport
write would have succeeded. -/
theorem send_not_connected_fails_witness :
    (ControllerState.mk false true false false 0 []).connected = false ∧
    send_command (ControllerState.mk false true false false 0 [])
        (encodeControl 3 true 10) true =
      (ControllerState.mk false true false false 0 [], false) :=
  ⟨rfl,
   send_not_connected_fails (ControllerState.mk false true false false 0 [])
     (encodeControl 3 true 10) true rfl⟩

/-- C4.  A transport write failure while connected (guard passed, write
raised) flips `connected` to false, stops the heartbeat task, and leaves
exactly one live reconnect-supervisor task: a new task is created
(start counter incremented) only when no live supervisor already
exists. -/
theorem write_failure_arms_reconnect (s : ControllerState) (command : List Nat)
    (hc : s.connected = true) (hcl : s.clientConnected = true) :
    (send_command s command false).2 = false ∧
    (send_command s command false).1.connected = false ∧
    (send_command s command false).1.heartbeatLive = false ∧
    (send_command s command false).1.reconnectLive = true ∧
    (s.reconnectLive = false →
      (send_command s command false).1.reconnectStarts = s.reconnectStarts + 1) ∧
    (s.reconnectLive = true →
      (send_command s command false).1.reconnectStarts = s.reconnectStarts) := by
  unfold send_command arm_reconnect stop_heartbeat
  rw [hc, hcl]
  cases hr : s.reconnectLive <;> simp [hr]

/-- Witness for C4 at a concrete input: a connected controller with a
live heartbeat and no supervisor gets exactly one supervisor scheduled
when a write fails. -/
theorem write_failure_arms_reconnect_witness :
    (ControllerState.mk true true true false 0 []).connected = true ∧
    (send_command (ControllerState.mk true true true false 0 [])
        (encodeControl 3 true 10) false).1.reconnectStarts = 0 + 1 :=
  ⟨rfl,
   ((write_failure_arms_reconnect (ControllerState.mk true true true false 0 [])
     (encodeControl 3 true 10) rfl rfl).2.2.2.2.1 rfl)⟩

/-- C8.  For a node table in which the broadcast address `0xFFFF` is not
a key, `send_control_command(0xFFFF, True, 255)` pushes the control
frame through the send path (when connected and the write succeeds, the
frame is written and the call succeeds), yet for every write outcome the
node table is returned unchanged entry-for-entry and no
`subdevice_updated` event is fired. -/
theorem broadcast_no_table_change (ms : MeshState)
    (hfresh : ms.subdevices.lookup BROADCAST_ADDR = none)
    (hc : ms.conn.connected = true) (hcl : ms.conn.clientConnected = true) :
    (send_control_command ms true BROADCAST_ADDR true 255).2.2 = true ∧
    (send_control_command ms true BROADCAST_ADDR true 255).1.conn.writes =
      ms.conn.writes ++ [encodeControl BROADCAST_ADDR true 255] ∧
    ∀ writeOk : Bool,
      (send_control_command ms writeOk BROADCAST_ADDR true 255).1.subdevices =
        ms.subdevices ∧
      (send_control_command ms writeOk BROADCAST_ADDR true 255).2.1 = [] := by
  have hlk : (ms.subdevices.lookup BROADCAST_ADDR).isSome = false := by
    rw [hfresh]; rfl
  refine ⟨?_, ?_, ?_⟩
  · unfold send_control_command
    rw [hlk]
    simp [send_command, hc, hcl]
  · unfold send_control_command
    rw [hlk]
    simp [send_command, hc, hcl]
  · intro writeOk
    unfold send_control_command
    rw [hlk]
    simp

/-- Witness for C8 at a concrete input: a connected controller with one
individually-addressed node keeps that node's entry untouched while the
broadcast frame is written. -/
theorem broadcast_no_table_change_witness :
    (([(3, ⟨"Sofa", ⟨false, 10⟩⟩)] : NodeTable).lookup BROADCAST_ADDR = none) ∧
    (send_control_command
        ⟨ControllerState.mk true true true false 0 [],
         [(3, ⟨"Sofa", ⟨false, 10⟩⟩)]⟩ true BROADCAST_ADDR true 255).1.subdevices =
      [(3, ⟨"Sofa", ⟨false, 10⟩⟩)] :=
  ⟨by decide,
   ((broadcast_no_table_change
      ⟨ControllerState.mk true true true false 0 [],
       [(3, ⟨"Sofa", ⟨false, 10⟩⟩)]⟩ (by decide) rfl rfl).2.2 true).1⟩

/-- C5.  `connect()` with `timeout` and `retries` unsupplied resolves the
retry budget to `self.max_retries = 3` (the timeout only parameterizes
the underlying transport call): for every sequence of attempt outcomes
it makes at most 3 attempts, the waits slept between consecutive
attempts are exactly `min(5 * (attempt + 1), 30)` seconds for each
non-final failed attempt, and if every attempt fails it returns failure
with `connected = false`. -/
theorem connect_defaults_bounded (outcome : Nat → Bool) :
    (connect false outcome none).attempts ≤ 3 ∧
    (connect false outcome none).waits =
      (List.range ((connect false outcome none).attempts - 1)).map
        (fun i => min (5 * (i + 1)) 30) ∧
    ((∀ i, i < 3 → outcome i = false) →
      (connect false outcome none).success = false ∧
      (connect false outcome none).connected = false) := by
  refine ⟨?_, ?_, ?_⟩
  · cases h0 : outcome 0 <;> cases h1 : outcome 1 <;> cases h2 : outcome 2 <;>
      simp [connect, connect_go, pyOr, h0, h1, h2]
  · cases h0 : outcome 0 <;> cases h1 : outcome 1 <;> cases h2 : outcome 2 <;>
      simp [connect, connect_go, pyOr, h0, h1, h2] <;> decide
  · intro hall
    have h0 := hall 0 (by omega)
    have h1 := hall 1 (by omega)
    have h2 := hall 2 (by omega)
    simp [connect, connect_go, pyOr, h0, h1, h2]

/-- Witness for C5 at a concrete input: when every attempt fails,
`connect` with defaults fails with `connected = false`. -/
theorem connect_defaults_bounded_witness :
    (connect false (fun _ => false) none).success = false ∧
    (connect false (fun _ => false) none).connected = false :=
  (connect_defaults_bounded (fun _ => false)).2.2 (fun _ _ => rfl)

/-- C7.  A well-formed notification whose decoded address is not yet in
the node table inserts a new entry whose display name is the four-digit
uppercase hexadecimal rendering of the address and whose state is the
notified on/brightness pair, and fires a single `new_subdevice_found`
event carrying the address, name and state.  Moreover this notification
path is the only runtime path that grows the table: the control send
path never changes the key set, and every run of the notification
handler either preserves the key set or performs exactly this insertion
with its discovery event. -/
theorem discovery_inserts_new_node (mac : String) (t : NodeTable)
    (data : List Nat) (address : Nat) (is_on : Bool) (brightness : Nat)
    (hdec : decodeNotification data = some (address, is_on, brightness))
    (hfresh : t.lookup address = none) :
    notification_handler mac t data =
      (t ++ [(address, ⟨toHex4 address, ⟨is_on, brightness⟩⟩)],
       [Event.newSubdeviceFound mac address (toHex4 address)
          ⟨is_on, brightness⟩]) ∧
    (address < 16 ^ 4 → (toHex4 address).length = 4 ∧
      ∀ c ∈ (toHex4 address).toList, c ∈ "0123456789ABCDEF".toList) ∧
    (∀ (ms : MeshState) (writeOk : Bool) (a : Nat) (o : Bool) (b : Nat),
      keys (send_control_command ms writeOk a o b).1.subdevices =
        keys ms.subdevices) ∧
    (∀ (m : String) (u : NodeTable) (d : List Nat),
      keys (notification_handler m u d).1 = keys u ∨
      ∃ a o b, decodeNotification d = some (a, o, b) ∧ u.lookup a = none ∧
        notification_handler m u d =
          (u ++ [(a, ⟨toHex4 a, ⟨o, b⟩⟩)],
           [Event.newSubdeviceFound m a (toHex4 a) ⟨o, b⟩])) := by
  refine ⟨?_, ?_, ?_, ?_⟩
  · unfold decodeNotification at hdec
    by_cases hG : data.length < 7 ∨ data.getD 0 0 ≠ HEADER
    · rw [if_pos hG] at hdec
      exact absurd hdec (by simp)
    · rw [if_neg hG] at hdec
      simp only [Option.some_inj, Prod.mk.injEq] at hdec
      obtain ⟨hA, hO, hB⟩ := hdec
      unfold notification_handler add_discovered_subdevice
      rw [if_neg hG]
      simp only [hA, hO, hB, hfresh, Option.isNone_none, if_true,
        Option.isSome_none, Bool.false_eq_true, if_false]
  · intro hlt
    exact ⟨toHex4_length address hlt, fun c hc => toHex4_chars address c hc⟩
  · intro ms writeOk a o b
    cases hcond : (send_command ms.conn (encodeControl a o b) writeOk).2
        && (ms.subdevices.lookup a).isSome <;>
      simp [send_control_command, hcond, keys_updateState]
  · intro m u d
    unfold notification_handler
    by_cases hG2 : d.length < 7 ∨ d.getD 0 0 ≠ HEADER
    · rw [if_pos hG2]
      left
      rfl
    · rw [if_neg hG2]
      cases hlk : (u.lookup (d.getD 1 0 + (d.getD 2 0) <<< 8)).isNone
      · simp only [hlk, Bool.false_eq_true, if_false]
        left
        exact keys_updateState u _ _
      · have hnone : u.lookup (d.getD 1 0 + (d.getD 2 0) <<< 8) = none :=
          Option.isNone_iff_eq_none.mp hlk
        simp only [hlk, if_true]
        right
        refine ⟨d.getD 1 0 + (d.getD 2 0) <<< 8, d.getD 5 0 != 0, d.getD 6 0,
          ?_, hnone, ?_⟩
        · unfold decodeNotification
          rw [if_neg hG2]
        · unfold add_discovered_subdevice
          rw [hnone]
          simp only [Option.isSome_none, Bool.false_eq_true, if_false]

/-- Witness for C7 at a concrete input: a notification from the unknown
address `0x0010` inserts an entry named `"0010"` and fires one discovery
event with that address, name and state. -/
theorem discovery_inserts_new_node_witness :
    decodeNotification [0xA5, 0x10, 0x00, 0x82, 0x02, 0x01, 0x80] =
      some (0x0010, true, 0x80) ∧
    (([] : NodeTable).lookup 0x0010 = none) ∧
    notification_handler "AA:BB" [] [0xA5, 0x10, 0x00, 0x82, 0x02, 0x01, 0x80] =
      ([(0x0010, ⟨toHex4 0x0010, ⟨true, 0x80⟩⟩)],
       [Event.newSubdeviceFound "AA:BB" 0x0010 (toHex4 0x0010) ⟨true, 0x80⟩]) :=
  ⟨by decide, rfl,
   (discovery_inserts_new_node "AA:BB" [] [0xA5, 0x10, 0x00, 0x82, 0x02, 0x01, 0x80]
     0x0010 true 0x80 (by decide) rfl).1⟩

/-- C10.  The notification handler never inspects the opcode bytes
(positions 3 and 4) nor any byte beyond position 6: two buffers of
length at least 7 that agree on positions 0, 1, 2, 5 and 6 are processed
identically.  In particular a header-correct frame carrying address
`0x0000` (outside the valid node range `[0x0001, 0xFF00]`) triggers
auto-discovery of a node with address `0x0000` named `"0000"`. -/
theorem handler_ignores_opcode_and_tail :
    (∀ (mac : String) (t : NodeTable) (d e : List Nat),
      7 ≤ d.length → 7 ≤ e.length →
      d.getD 0 0 = e.getD 0 0 → d.getD 1 0 = e.getD 1 0 →
      d.getD 2 0 = e.getD 2 0 → d.getD 5 0 = e.getD 5 0 →
      d.getD 6 0 = e.getD 6 0 →
      notification_handler mac t d = notification_handler mac t e) ∧
    notification_handler "AA:BB" [] [0xA5, 0x00, 0x00, 0x82, 0x02, 0x01, 0x07] =
      ([(0, ⟨"0000", ⟨true, 7⟩⟩)],
       [Event.newSubdeviceFound "AA:BB" 0 "0000" ⟨true, 7⟩]) := by
  constructor
  · intro mac t d e hd he h0 h1 h2 h5 h6
    unfold notification_handler
    rw [h0, h1, h2, h5, h6]
    have h7d : (d.length < 7) = False := eq_false (by omega)
    have h7e : (e.length < 7) = False := eq_false (by omega)
    exact if_congr (by rw [h7d, h7e]) rfl rfl
  · decide

/-- Witness for C10 at concrete inputs: two frames for address `0x0003`
that differ in both opcode bytes and in an extra trailing byte are
processed identically. -/
theorem handler_ignores_opcode_and_tail_witness :
    notification_handler "AA:BB" [(3, ⟨"Sofa", ⟨false, 10⟩⟩)]
        [0xA5, 3, 0, 0, 0, 1, 9] =
      notification_handler "AA:BB" [(3, ⟨"Sofa", ⟨false, 10⟩⟩)]
        [0xA5, 3, 0, 0xFF, 0xEE, 1, 9, 77] :=
  handler_ignores_opcode_and_tail.1 "AA:BB" [(3, ⟨"Sofa", ⟨false, 10⟩⟩)]
    [0xA5, 3, 0, 0, 0, 1, 9] [0xA5, 3, 0, 0xFF, 0xEE, 1, 9, 77]
    (by decide) (by decide) rfl rfl rfl rfl rfl

lemma persistent_reconnect_getD (base : Nat) (ok : Nat → Bool) (df : SupIter) :
    ∀ (fuel a0 i : Nat), i < (persistent_reconnect base ok fuel a0).length →
      (persistent_reconnect base ok fuel a0).getD i df =
        supervisor_iter base ok (a0 + i + 1) ∧
      (ok (a0 + i + 1) = true →
        i + 1 = (persistent_reconnect base ok fuel a0).length) := by
  intro fuel
  induction fuel with
  | zero =>
    intro a0 i h
    simp [persistent_reconnect] at h
  | succ fuel ih =>
    intro a0 i h
    unfold persistent_reconnect at h ⊢
    cases hok : ok (a0 + 1)
    · simp only [hok, Bool.false_eq_true, if_false] at h ⊢
      cases i with
      | zero =>
        refine ⟨rfl, fun habs => ?_⟩
        rw [Nat.add_zero] at habs
        rw [habs] at hok
        exact absurd hok (by simp)
      | succ i =>
        have hlen : i < (persistent_reconnect base ok fuel (a0 + 1)).length := by
          simp only [List.length_cons] at h
          omega
        obtain ⟨hget, hlast⟩ := ih (a0 + 1) i hlen
        rw [List.getD_cons_succ]
        constructor
        · rw [hget]
          congr 1
          omega
        · intro hsucc
          have hsucc2 : ok (a0 + 1 + i + 1) = true := by
            have harith : a0 + 1 + i + 1 = a0 + (i + 1) + 1 := by omega
            rw [harith]
            exact hsucc
          have := hlast hsucc2
          simp only [List.length_cons]
          omega
    · simp only [hok, if_true] at h ⊢
      have hi : i = 0 := by
        simp only [List.length_singleton] at h
        omega
      subst hi
      exact ⟨rfl, fun _ => rfl⟩

/-- C6.  Every iteration of the persistent reconnect supervisor with
attempt counter `attempt = i + 1` (the counter starts at 1) computes the
connect timeout `min(base_timeout + attempt * 5, 60)` and the
post-failure wait `min(2 ** attempt, 60)`, invokes `connect` with
exactly one retry, runs the passive presence check (discovery-cache
refresh) exactly on every second attempt, exits the loop as soon as
`connect` succeeds (a successful iteration is the last one), and
otherwise sleeps exactly the computed wait before repeating. -/
theorem supervisor_iteration_shape (base : Nat) (ok : Nat → Bool)
    (fuel i : Nat) (df : SupIter)
    (h : i < (persistent_reconnect base ok fuel 0).length) :
    ((persistent_reconnect base ok fuel 0).getD i df).attempt = i + 1 ∧
    ((persistent_reconnect base ok fuel 0).getD i df).timeout =
      min (base + (i + 1) * 5) 60 ∧
    ((persistent_reconnect base ok fuel 0).getD i df).wait =
      min (2 ^ (i + 1)) 60 ∧
    ((persistent_reconnect base ok fuel 0).getD i df).connect_retries = 1 ∧
    ((persistent_reconnect base ok fuel 0).getD i df).presence_check =
      ((i + 1) % 2 == 0) ∧
    (((persistent_reconnect base ok fuel 0).getD i df).connect_ok = true →
      i + 1 = (persistent_reconnect base ok fuel 0).length) ∧
    (((persistent_reconnect base ok fuel 0).getD i df).connect_ok = false →
      ((persistent_reconnect base ok fuel 0).getD i df).slept =
        some (((persistent_reconnect base ok fuel 0).getD i df).wait)) := by
  obtain ⟨hget, hlast⟩ := persistent_reconnect_getD base ok df fuel 0 i h
  rw [Nat.zero_add] at hget hlast
  rw [hget]
  unfold supervisor_iter
  refine ⟨rfl, rfl, rfl, rfl, ?_, ?_, ?_⟩
  · cases i with
    | zero => rfl
    | succ i =>
      have h1 : decide (1 < i + 1 + 1) = true := decide_eq_true (by omega)
      show (decide (1 < i + 1 + 1) && ((i + 1 + 1) % 2 == 0)) =
        ((i + 1 + 1) % 2 == 0)
      rw [h1, Bool.true_and]
  · exact hlast
  · intro hfail
    have hok : ok (i + 1) = false := hfail
    show (if ok (i + 1) = true then none else some (min (2 ^ (i + 1)) 60)) = _
    rw [if_neg (by rw [hok]; simp)]

/-- Witness for C6 at a concrete input: with base timeout 15 and a
connect oracle that succeeds on the third attempt, the second iteration
(index 1) has attempt counter 2 and runs the presence check. -/
theorem supervisor_iteration_shape_witness :
    1 < (persistent_reconnect 15 (fun a => a == 3) 5 0).length ∧
    ((persistent_reconnect 15 (fun a => a == 3) 5 0).getD 1
        (supervisor_iter 15 (fun a => a == 3) 0)).attempt = 1 + 1 ∧
    ((persistent_reconnect 15 (fun a => a == 3) 5 0).getD 1
        (supervisor_iter 15 (fun a => a == 3) 0)).presence_check =
      ((1 + 1) % 2 == 0) :=
  ⟨by decide,
   (supervisor_iteration_shape 15 (fun a => a == 3) 5 1
     (supervisor_iter 15 (fun a => a == 3) 0) (by decide)).1,
   (supervisor_iteration_shape 15 (fun a => a == 3) 5 1
     (supervisor_iter 15 (fun a => a == 3) 0) (by decide)).2.2.2.2.1⟩

lemma dictInsert_lookup_isSome (t : List (Int × Subdevice)) (a b : Int)
    (v : Subdevice) :
    ((dictInsert t b v).lookup a).isSome = true ↔
      a = b ∨ (t.lookup a).isSome = true := by
  unfold dictInsert
  by_cases hb : (t.lookup b).isSome = true
  · rw [if_pos hb]
    rw [List.lookup_isSome_iff] at hb
    obtain ⟨q0, hq0, hbq⟩ := hb
    rw [beq_iff_eq] at hbq
    simp only [List.lookup_isSome_iff, List.mem_map, beq_iff_eq]
    constructor
    · rintro ⟨p, ⟨q, hq, rfl⟩, hp⟩
      by_cases hqb : q.1 = b
      · rw [if_pos hqb] at hp
        left
        exact hp
      · rw [if_neg hqb] at hp
        right
        exact ⟨q, hq, hp⟩
    · rintro (rfl | ⟨q, hq, rfl⟩)
      · exact ⟨(a, v), ⟨q0, hq0, by rw [if_pos hbq.symm]⟩, rfl⟩
      · by_cases hqb : q.1 = b
        · exact ⟨(b, v), ⟨q0, hq0, by rw [if_pos hbq.symm]⟩, hqb⟩
        · exact ⟨q, ⟨q, hq, by rw [if_neg hqb]⟩, rfl⟩
  · rw [if_neg hb]
    rw [List.lookup_append]
    cases hta : t.lookup a
    · rw [Option.none_or]
      rw [List.lookup_cons]
      by_cases hab : a = b
      · simp [hab]
      · simp [beq_false_of_ne hab, hab, hta]
    · simp [hta]

lemma load_foldl_lookup (raw : List (String × Subdevice)) :
    ∀ (acc : List (Int × Subdevice)) (a : Int),
      ((raw.foldl load_step acc).lookup a).isSome = true ↔
        (acc.lookup a).isSome = true ∨
          ∃ k v, (k, v) ∈ raw ∧ pyInt k = some a := by
  induction raw with
  | nil => simp
  | cons kv raw ih =>
    intro acc a
    rw [List.foldl_cons, ih (load_step acc kv) a]
    cases hk : pyInt kv.1 with
    | none =>
      have hstep : load_step acc kv = acc := by
        unfold load_step
        rw [hk]
      rw [hstep]
      constructor
      · rintro (h | ⟨k, v, hm, hp⟩)
        · left
          exact h
        · right
          exact ⟨k, v, List.mem_cons_of_mem _ hm, hp⟩
      · rintro (h | ⟨k, v, hm, hp⟩)
        · left
          exact h
        · rcases List.mem_cons.mp hm with heq | hmem
          · exfalso
            have hk1 : k = kv.1 := by rw [← heq]
            rw [hk1, hk] at hp
            exact absurd hp (by simp)
          · right
            exact ⟨k, v, hmem, hp⟩
    | some b =>
      have hstep : load_step acc kv = dictInsert acc b kv.2 := by
        unfold load_step
        rw [hk]
      rw [hstep, dictInsert_lookup_isSome]
      constructor
      · rintro ((rfl | h) | ⟨k, v, hm, hp⟩)
        · right
          exact ⟨kv.1, kv.2, List.mem_cons_self _ _, hk⟩
        · left
          exact h
        · right
          exact ⟨k, v, List.mem_cons_of_mem _ hm, hp⟩
      · rintro (h | ⟨k, v, hm, hp⟩)
        · left
          right
          exact h
        · rcases List.mem_cons.mp hm with heq | hmem
          · left
            left
            have hk1 : k = kv.1 := by rw [← heq]
            rw [hk1, hk] at hp
            exact (Option.some_inj.mp hp).symm
          · right
            exact ⟨k, v, hmem, hp⟩

/-- C9 counterexample.  The configuration loader parses string address
keys with Python `int(k)`, which reads base-TEN: the key `"0010"` is
loaded as node address 10, not as `0x0010 = 16` as the claim states, so
looking up address 16 in the loaded table fails while address 10
succeeds. -/
theorem config_key_not_hex_counterexample :
    pyInt "0010" = some 10 ∧
    load_subdevices [("0010", ⟨"Desk", ⟨false, 0⟩⟩)] =
      [((10 : Int), ⟨"Desk", ⟨false, 0⟩⟩)] ∧
    (load_subdevices [("0010", ⟨"Desk", ⟨false, 0⟩⟩)]).lookup 0x0010 = none ∧
    (10 : Int) ≠ 0x0010 := by
  refine ⟨by decide, by decide, by decide, by decide⟩

/-- C9 amended.  For every inbound configuration subdevice map, each
string address key is normalized with Python `int()`, i.e. parsed as a
base-TEN integer literal; keys that fail to parse are discarded while
the remaining entries are still loaded: an address is a key of the
loaded node table exactly when some raw entry's key parses (base 10) to
that address. -/
theorem config_keys_base10_normalized (raw : List (String × Subdevice))
    (a : Int) :
    ((load_subdevices raw).lookup a).isSome = true ↔
      ∃ k v, (k, v) ∈ raw ∧ pyInt k = some a := by
  unfold load_subdevices
  rw [load_foldl_lookup raw [] a]
  simp

/-- Witness for the amended C9 at a concrete input: a map with one bad
key and one good decimal key loads exactly the good entry. -/
theorem config_keys_base10_normalized_witness :
    ((load_subdevices [("zz", ⟨"Bad", ⟨false, 0⟩⟩),
        ("22", ⟨"Lamp", ⟨true, 5⟩⟩)]).lookup 22).isSome = true :=
  (config_keys_base10_normalized
      [("zz", ⟨"Bad", ⟨false, 0⟩⟩), ("22", ⟨"Lamp", ⟨true, 5⟩⟩)] 22).mpr
    ⟨"22", ⟨"Lamp", ⟨true, 5⟩⟩, by decide, by decide⟩

end TledBle
